import Mathlib

/-!
Shallow embedding of `openelex/us/fl/load.py` (Florida election results
loaders) and proofs about the claims on its specification.

The file embeds the two loader variants:

* `FlLoader` (county-summary files): `flSkipRow`, `flPrepResult` (built from
  `_build_contest_kwargs`, `_build_candidate_kwargs`, `_build_result_kwargs`),
  the deduplicating loop of `FlLoader.load` (`flStep` / `flLoadResults`), the
  dedup key `_key` (`rawKey`) and the vote coercion `_votes` (`pyVotes`).
* `PrecinctLoader` (precinct-detail files): `precSkipRow`,
  `prepPrecinctResult` (from `_prep_precinct_result` together with the
  overridden `_build_contest_kwargs` / `_build_candidate_kwargs`), and the
  non-deduplicating loop of `PrecinctLoader.load` (`precinctProcess`).

Machine-level conventions of the embedding:

* Python strings are Lean `String`; `str.strip()` is `pyStrip`,
  `str.upper()` / `str.lower()` are `pyUpper` / `pyLower` — character-level
  ASCII versions defined below, which agree with Python on the ASCII data
  these files carry (and which, unlike `String.trim`, evaluate inside the
  kernel).
* Python `float(val)` is modelled by `pyParseFloat`: CPython's grammar for
  float literals (optional sign, digits with single underscores between
  digits, optional fraction and exponent, or the case-insensitive keywords
  inf / infinity / nan).  A finite value is kept exact as a signed
  mantissa-and-decimal-exponent pair.  Values whose magnitude reaches the
  IEEE-754 double overflow boundary 2^1024 - 2^970 parse to an infinity,
  as CPython's float("1e400") does.  Rounding of finite values to the
  nearest double is not modelled (no claim depends on it); unicode digits
  and unicode-only whitespace cannot occur in the latin-1 decoded input.
* `int(x)` on a float truncates toward zero (`pyTrunc`); on an infinity it
  raises OverflowError and on a nan it raises ValueError.  `_votes` catches
  only ValueError.
* Exceptions that propagate out of a loader are `Except.error`; the store
  call `RawResult.objects.insert(results)` is the event
  `StoreEvent.insert`.
* A Python dict of keyword args with a statically known key set is a Lean
  structure; a key that a variant never sets is an `Option` field holding
  `none` (mongoengine returns `None` for an unset declared field, and
  `_key` reaches the dynamic `reporting_district` attribute through
  `try/except AttributeError`, which `Option` models as well).
-/

deriving instance DecidableEq for Except

namespace FlLoad

/-! ### ASCII string primitives (Python `strip` / `upper` / `lower`) -/

/-- The whitespace characters Python's `str.strip()` removes, restricted
to ASCII (the loaders' latin-1 input carries no unicode-only
whitespace). -/
def pySpace (c : Char) : Bool :=
  c == ' ' || c == '\t' || c == '\n' || c == '\r' || c == '\x0b' || c == '\x0c'

/-- Python `str.strip()` on a character list: drop whitespace from both
ends. -/
def stripChars (l : List Char) : List Char :=
  ((l.dropWhile pySpace).reverse.dropWhile pySpace).reverse

/-- Python `str.strip()`. -/
def pyStrip (s : String) : String := String.mk (stripChars s.toList)

/-- ASCII lowercasing of one character (Python `str.lower()` on the ASCII
data at hand). -/
def lowerChar (c : Char) : Char :=
  if 'A' ≤ c && c ≤ 'Z' then Char.ofNat (c.toNat + 32) else c

/-- ASCII uppercasing of one character (Python `str.upper()` on the ASCII
data at hand). -/
def upperChar (c : Char) : Char :=
  if 'a' ≤ c && c ≤ 'z' then Char.ofNat (c.toNat - 32) else c

/-- Python `str.lower()`. -/
def pyLower (s : String) : String := String.mk (s.toList.map lowerChar)

/-- Python `str.upper()`. -/
def pyUpper (s : String) : String := String.mk (s.toList.map upperChar)

/-- Modelled from the spec: the body of the slugify rule of section 4.2 on
an already-lowercased character list — each maximal run of
non-alphanumeric characters collapses to a single hyphen.  The flag says
whether the previous character belonged to such a run (its hyphen is
already emitted). -/
def slugAux : Bool → List Char → List Char
  | _, [] => []
  | inRun, c :: cs =>
    if c.isAlphanum then c :: slugAux false cs
    else if inRun then slugAux true cs
    else '-' :: slugAux true cs

/-- Modelled from the spec: the slugify rule of section 4.2 (lowercase,
non-alphanumeric runs collapsed to a single hyphen).  The function
`openelex.lib.text.slugify` itself is outside the repository's files. -/
def slugify (s : String) : String :=
  String.mk (slugAux false (s.toList.map lowerChar))

/-- Modelled from the spec: `openelex.lib.text.ocd_type_id`, the URL/path
safe jurisdiction-code component of section 4.3 ("code(jurisdiction)").
The function is outside the repository's files; the spec only requires a
deterministic path-safe encoding, modelled with the same slugify rule. -/
def ocd_type_id (s : String) : String := slugify s

/-- Does `needle` occur at the head of `hay`? (helper for substring tests) -/
def leadEq : List Char → List Char → Bool
  | [], _ => true
  | _ :: _, [] => false
  | a :: as, b :: bs => a == b && leadEq as bs

/-- Python's `needle in hay` on strings: `needle` occurs contiguously in
`hay`. -/
def occursAt : List Char → List Char → Bool
  | needle, [] => leadEq needle []
  | needle, c :: rest => leadEq needle (c :: rest) || occursAt needle rest

/-- Python's `needle in hay` substring test, on `String`. -/
def strOccurs (needle hay : String) : Bool := occursAt needle.toList hay.toList

/-- FlLoader.target_offices (a Python set of string literals; iteration
order is irrelevant to every use, so a list models it). -/
def targetOffices : List String :=
  [ "U.S. President by Congressional District",
    "President of the United States",
    "United States Senator",
    "United States Representative",
    "State Representative",
    "State Senate",
    "State Senator",
    "Governor",
    "Governor and Lieutenant Governor",
    "Attorney General",
    "Chief Financial Officer",
    "Commissioner of Agriculture" ]

/-- FlLoader.district_offices. -/
def districtOffices : List String :=
  [ "United States Representative",
    "State Representative",
    "State Senate",
    "State Senator" ]

/-- A row of a county-summary file, as the `unicodecsv.DictReader` with a
header row delivers it: the columns `FlLoader` reads.  (Further columns of
the format are never consulted by the loader.) -/
structure CountyRow where
  OfficeDesc : String
  CountyName : String
  Juris1num : String
  CanNameLast : String
  CanNameFirst : String
  CanNameMiddle : String
  PartyName : String
  CanVotes : String
deriving DecidableEq

/-- A row of a precinct-detail file, under the fixed `fieldnames` list of
`PrecinctLoader.load`: the columns the loader reads.  (The remaining fixed
columns — county_code, election_number, election_date, election_name,
registered_voters, registered_republicans, registered_democrats,
registered_others, contest_code, candidate_id, doe_candidate_number — are
never consulted.) -/
structure PrecinctRow where
  county_name : String
  precinct_id : String
  polling_location : String
  contest_name : String
  district : String
  candidate : String
  party : String
  votes : String
deriving DecidableEq

/-- Modelled from the spec: the ElectionContext of section 3 ("attributes
common to every record drawn from one file: election identifier, date,
state, result-set kind").  `BaseLoader._build_common_election_kwargs` is
outside the repository's files. -/
structure CommonKwargs where
  election_id : String
  start_date : String
  state : String
  result_type : String
deriving DecidableEq

/-- The value stored under the `votes` key of a result's kwargs.  The
county-summary loader stores the raw stripped string
(`row['CanVotes'].strip()`); the precinct loader stores the integer
`self._votes(row['votes'])`.  Python is dynamically typed, so the field is
a sum. -/
inductive VotesVal where
  | str (s : String)
  | int (n : Int)
deriving DecidableEq

/-- The kwargs a loader hands to `RawResult(**kwargs)`: the union of the
keys either variant sets.  Keys only one variant sets are `Option` fields
(`none` models the unset mongoengine field / absent dynamic attribute). -/
structure RawResult where
  common : CommonKwargs
  office : String
  district : Option String := none
  family_name : Option String := none
  given_name : Option String := none
  additional_name : Option String := none
  full_name : Option String := none
  name_slug : Option String := none
  party : String
  jurisdiction : String
  parent_jurisdiction : Option String := none
  ocd_id : String
  reporting_level : String
  reporting_district : Option String := none
  votes : VotesVal
deriving DecidableEq

/-- Modelled from the spec: `RawResult.contest_slug` (a property of the
mongoengine model `openelex.models.RawResult`, outside the repository's
files).  Section 4.4: slugs are derived from the corresponding names with
the slugify rule of section 4.2; the contest's name is the office. -/
def RawResult.contest_slug (r : RawResult) : String := slugify r.office

/-- Modelled from the spec: `RawResult.candidate_slug` (same model
property, outside the repository's files): the slugified candidate name —
the precinct variant's full name when set, otherwise the county variant's
given and family name. -/
def RawResult.candidate_slug (r : RawResult) : String :=
  match r.full_name with
  | some n => slugify n
  | none => slugify ((r.given_name.getD "") ++ " " ++ (r.family_name.getD ""))

/-! ## Python float parsing and `FlLoader._votes` -/

/-- A CPython float value, as far as `_votes` can observe one: a finite
value — kept exact as a sign, a decimal mantissa and a decimal exponent,
so the value is `±mantissa·10^exp10` — an infinity, or a nan.  (The
representation is not unique; no claim compares two finite values.) -/
inductive PyFloat where
  | finite (neg : Bool) (mantissa : Nat) (exp10 : Int)
  | inf
  | negInf
  | nan
deriving DecidableEq

/-- A run of decimal digits with single underscores allowed between digits
(CPython's numeric-literal grammar): returns the value, how many digits
were read, and the unread rest. -/
def digitRun : List Char → Nat → Nat → Nat × Nat × List Char
  | [], acc, n => (acc, n, [])
  | c :: cs, acc, n =>
    if c.isDigit then digitRun cs (10 * acc + (c.toNat - 48)) (n + 1)
    else if c = '_' then
      match cs with
      | d :: cs2 =>
        if d.isDigit then digitRun cs2 (10 * acc + (d.toNat - 48)) (n + 2)
        else (acc, n, c :: cs)
      | [] => (acc, n, c :: cs)
    else (acc, n, c :: cs)

/-- The IEEE-754 double overflow boundary 2^1024 - 2^970, as a numeral (see
`dblBound_eq`): a decimal value of at least this magnitude rounds to an
infinity, which is what CPython's float("1e400") returns. -/
def dblBound : Nat := 179769313486231580793728971405303415079934132710037826936173778980444968292764750946649017977587207096330286416692887910946555547851940402630657488671505820681908902000708383676273854845817711531764475730270069855571366959622842914819860834936475292719074168444365510704342711559699508093042880177904174497792

/-- Does `mantissa·10^exp10` reach the double overflow boundary? -/
def overflowsDouble (mantissa : Nat) (exp10 : Int) : Bool :=
  if 0 ≤ exp10 then dblBound ≤ mantissa * 10 ^ exp10.toNat
  else dblBound * 10 ^ (-exp10).toNat ≤ mantissa

/-- Mantissa, exponent and sign to a `PyFloat`, applying the overflow
boundary. -/
def finishFloat (neg : Bool) (mantissa : Nat) (exp10 : Int) : PyFloat :=
  if overflowsDouble mantissa exp10 then (if neg then .negInf else .inf)
  else .finite neg mantissa exp10

/-- The body of CPython float-literal parsing, on a lowercased,
whitespace-stripped character list: optional sign, then the keywords
inf / infinity / nan or a numeric literal (digits with optional fraction
and exponent, at least one digit before or after the point).  The digits
before and after the point make the mantissa `iVal·10^fCnt + fVal` with
decimal exponent `-fCnt`, shifted by the explicit exponent when one is
given. -/
def parseFloatCore (l : List Char) : Option PyFloat :=
  let (neg, l1) :=
    match l with
    | '+' :: r => (false, r)
    | '-' :: r => (true, r)
    | _ => (false, l)
  if l1 = ['i', 'n', 'f'] ∨ l1 = ['i', 'n', 'f', 'i', 'n', 'i', 't', 'y'] then
    some (if neg then .negInf else .inf)
  else if l1 = ['n', 'a', 'n'] then
    some .nan
  else
    let (iVal, iCnt, r1) := digitRun l1 0 0
    let (fVal, fCnt, r2) :=
      match r1 with
      | '.' :: r => digitRun r 0 0
      | _ => (0, 0, r1)
    if iCnt + fCnt = 0 then none
    else
      let mantissa : Nat := iVal * 10 ^ fCnt + fVal
      match r2 with
      | [] => some (finishFloat neg mantissa (-(fCnt : Int)))
      | 'e' :: r3 =>
        let (eNeg, r4) :=
          match r3 with
          | '+' :: r => (false, r)
          | '-' :: r => (true, r)
          | _ => (false, r3)
        let (eVal, eCnt, r5) := digitRun r4 0 0
        if eCnt = 0 ∨ r5 ≠ [] then none
        else
          let exp10 : Int :=
            (if eNeg then -(eVal : Int) else (eVal : Int)) - (fCnt : Int)
          some (finishFloat neg mantissa exp10)
      | _ => none

/-- CPython `float(s)` on a string: strip surrounding whitespace, lowercase
(the grammar is case-insensitive throughout) and parse; `none` is a raised
ValueError. -/
def pyParseFloat (s : String) : Option PyFloat :=
  parseFloatCore ((stripChars s.toList).map lowerChar)

/-- CPython `int(x)` on a finite float: truncation toward zero — the
magnitude is floor-divided by the power of ten (exact multiplication when
the exponent is non-negative) and the sign applied afterward, which
truncates toward zero for either sign. -/
def pyTrunc (neg : Bool) (mantissa : Nat) (exp10 : Int) : Int :=
  let mag : Nat :=
    if 0 ≤ exp10 then mantissa * 10 ^ exp10.toNat
    else mantissa / 10 ^ (-exp10).toNat
  if neg then -(mag : Int) else (mag : Int)

/-- The one exception `FlLoader._votes` can propagate: `int()` of an
infinite float raises OverflowError, which the `except ValueError` clause
does not catch. -/
inductive PyExc where
  | overflowError
deriving DecidableEq

/-- FlLoader._votes: empty or whitespace-only strings give 0; a string
`float()` rejects gives 0 (ValueError caught), as does nan (`int(nan)`
raises ValueError, also caught); a finite value is truncated toward zero;
an infinite value propagates OverflowError. -/
def pyVotes (val : String) : Except PyExc Int :=
  if pyStrip val = "" then .ok 0
  else
    match pyParseFloat val with
    | none => .ok 0
    | some (.finite neg m e) => .ok (pyTrunc neg m e)
    | some .nan => .ok 0
    | some .inf => .error .overflowError
    | some .negInf => .error .overflowError

/-! ## County-summary loader (`FlLoader`) -/

/-- FlLoader._skip_row: the trimmed OfficeDesc is not a target office. -/
def flSkipRow (row : CountyRow) : Bool :=
  decide (pyStrip row.OfficeDesc ∉ targetOffices)

/-- The special multi-district presidential office of
`_build_result_kwargs`. -/
def presByCD : String := "U.S. President by Congressional District"

/-- FlLoader._prep_result: copy the common kwargs, then apply
`_build_contest_kwargs`, `_build_candidate_kwargs` and
`_build_result_kwargs` in order (their key sets are disjoint).
`mappingOcd` is `self.mapping['ocd_id']`, handed in by the caller. -/
def flPrepResult (mappingOcd : String) (common : CommonKwargs)
    (row : CountyRow) : RawResult :=
  let office := pyStrip row.OfficeDesc
  let jurisdiction := pyStrip row.CountyName
  { common := common
    -- _build_contest_kwargs
    office := office
    district :=
      if office ∈ districtOffices then some (pyStrip row.Juris1num) else none
    -- _build_candidate_kwargs
    family_name := some (pyStrip row.CanNameLast)
    given_name := some (pyStrip row.CanNameFirst)
    additional_name := some (pyStrip row.CanNameMiddle)
    -- _build_result_kwargs
    party := pyStrip row.PartyName
    jurisdiction := jurisdiction
    ocd_id := mappingOcd ++ "/county:" ++ ocd_type_id jurisdiction
    reporting_level :=
      if office = presByCD then "congressional_district_by_county"
      else "county"
    reporting_district :=
      if office = presByCD then some (pyStrip row.Juris1num) else none
    votes := .str (pyStrip row.CanVotes) }

/-- FlLoader._key: hyphen-join contest slug, candidate slug and slugified
jurisdiction; append the district when it is set and non-empty (Python
truthiness of `rawresult.district`); append the reporting district
whenever the attribute exists (the `try/except AttributeError`). -/
def rawKey (r : RawResult) : String :=
  let bits := [r.contest_slug, r.candidate_slug, slugify r.jurisdiction]
  let bits :=
    match r.district with
    | some d => if d = "" then bits else bits ++ [d]
    | none => bits
  let bits :=
    match r.reporting_district with
    | some rd => bits ++ [rd]
    | none => bits
  String.intercalate "-" bits

/-- One iteration of the loop of FlLoader.load: skip non-target rows;
otherwise build the result and keep it only when its key is unseen.  The
state is the `results` list and the `seen` key set (a list used only
through membership). -/
def flStep (mappingOcd : String) (common : CommonKwargs)
    (st : List RawResult × List String) (row : CountyRow) :
    List RawResult × List String :=
  if flSkipRow row then st
  else
    let result := flPrepResult mappingOcd common row
    let key := rawKey result
    if key ∈ st.2 then st
    else (st.1 ++ [result], key :: st.2)

/-- The batch FlLoader.load accumulates over the file's rows. -/
def flLoadResults (mappingOcd : String) (common : CommonKwargs)
    (rows : List CountyRow) : List RawResult :=
  (rows.foldl (flStep mappingOcd common) ([], [])).1

/-- A call on the external store; `RawResult.objects.insert(results)` is
the only one a loader makes. -/
inductive StoreEvent where
  | insert (batch : List RawResult)
deriving DecidableEq

/-- The store calls FlLoader.load makes for one file: the loop never
raises, and the single bulk insert of the batch follows it. -/
def flLoadEvents (mappingOcd : String) (common : CommonKwargs)
    (rows : List CountyRow) : List StoreEvent :=
  [.insert (flLoadResults mappingOcd common rows)]

/-! ## Precinct-detail loader (`PrecinctLoader`) -/

/-- PrecinctLoader._skip_row: keep the row iff some target office occurs
in the contest_name field as a substring. -/
def precSkipRow (row : PrecinctRow) : Bool :=
  !(targetOffices.any fun o => strOccurs o row.contest_name)

/-- A `{name, code}` entry of `Datasource._jurisdictions()`, the Reference
Resolver's externally supplied lookup table. -/
structure Jurisdiction where
  county : String
  ocd_id : String
deriving DecidableEq

/-- The jurisdiction resolution of `_prep_precinct_result`:
`[c for c in jurisdictions if c['county'].upper() == row_county.upper()
+ ' COUNTY'][0]['ocd_id']`.  An empty filter result makes the `[0]` raise
IndexError (`none`); otherwise the first match's code is taken. -/
def resolveCounty (juris : List Jurisdiction) (countyName : String) :
    Option String :=
  match juris.filter
      (fun c => decide (pyUpper c.county = pyUpper countyName ++ " COUNTY")) with
  | [] => none
  | c :: _ => some c.ocd_id

/-- PrecinctLoader._build_candidate_kwargs, as the full name it produces:
substitute on the stripped raw value (the code compares
`row['candidate'].strip()` against each keyword and overwrites the field),
then strip. -/
def precinctFullName (raw : String) : String :=
  if pyStrip raw = "UnderVotes" then "Under Votes"
  else if pyStrip raw = "OverVotes" then "Over Votes"
  else if pyStrip raw = "WriteinVotes" then "Write-ins"
  else pyStrip raw

/-- An exception that propagates out of `_prep_precinct_result` and aborts
the file's load: the IndexError of an unresolvable county, or the
OverflowError `_votes` can raise. -/
inductive PrecErr where
  | indexError (countyName : String)
  | overflowError
deriving DecidableEq

/-- PrecinctLoader._prep_precinct_result.  The kwargs start from a copy of
`self._common_kwargs` — whose reporting_level entry, set by `load` before
the loop, is the `_inheritedLevel` argument — and the row-level update
then overwrites reporting_level with the literal "precinct", so the
inherited entry never reaches the result.  County resolution runs
before the kwargs-update dict literal, whose `votes` entry calls
`_votes`; so an IndexError fires before any OverflowError. -/
def prepPrecinctResult (juris : List Jurisdiction) (common : CommonKwargs)
    (_inheritedLevel : String) (row : PrecinctRow) :
    Except PrecErr RawResult :=
  let fullName := precinctFullName row.candidate
  let precinct := pyStrip (row.precinct_id ++ " " ++ row.polling_location)
  match resolveCounty juris row.county_name with
  | none => .error (.indexError row.county_name)
  | some countyOcd =>
    match pyVotes row.votes with
    | .error _ => .error .overflowError
    | .ok v =>
      .ok { common := common
            -- _build_contest_kwargs (overridden): district always set
            office := row.contest_name
            district := some (pyStrip row.district)
            -- _build_candidate_kwargs (overridden)
            full_name := some fullName
            name_slug := some (slugify fullName)
            -- the final kwargs.update of _prep_precinct_result;
            -- reporting_level overwrites the inherited entry
            reporting_level := "precinct"
            jurisdiction := precinct
            parent_jurisdiction := some row.county_name
            ocd_id := countyOcd ++ "/precinct:" ++ ocd_type_id row.precinct_id
            party := pyStrip row.party
            votes := .int v }

/-- The loop of PrecinctLoader.load: build the results list row by row; an
exception from `_prep_precinct_result` aborts the whole loop.  (The loader
performs no deduplication.)  The common kwargs' reporting_level entry is
the literal "precinct" that `load` stores before the loop. -/
def precinctProcess (juris : List Jurisdiction) (common : CommonKwargs) :
    List PrecinctRow → Except PrecErr (List RawResult)
  | [] => .ok []
  | row :: rest =>
    if precSkipRow row then precinctProcess juris common rest
    else
      match prepPrecinctResult juris common "precinct" row with
      | .error e => .error e
      | .ok r =>
        match precinctProcess juris common rest with
        | .error e => .error e
        | .ok rs => .ok (r :: rs)

/-- The store calls PrecinctLoader.load makes for one file: the single
bulk insert after the loop when every row went through, and none at all
when the loop raised. -/
def precinctLoadEvents (juris : List Jurisdiction) (common : CommonKwargs)
    (rows : List PrecinctRow) : List StoreEvent :=
  match precinctProcess juris common rows with
  | .ok rs => [.insert rs]
  | .error _ => []

/-! ## Concrete inputs used by witnesses and counterexamples -/

/-- An election context for concrete runs (its contents never influence a
claim). -/
def common0 : CommonKwargs := ⟨"fl-2012-11-06-general", "2012-11-06", "fl", "certified"⟩

/-- A reference list with a single entry for Leon county. -/
def jurisLeon : List Jurisdiction := [⟨"Leon County", "ocd-leon"⟩]

/-- A reference list in which "LEON COUNTY" matches two entries. -/
def jurisTwoLeon : List Jurisdiction :=
  [⟨"Leon County", "ocd-leon-1"⟩, ⟨"Leon County", "ocd-leon-2"⟩]

/-- A precinct-detail row for a Governor contest. -/
def prowGov : PrecinctRow :=
  { county_name := "Leon", precinct_id := "1", polling_location := "City Hall",
    contest_name := "Governor", district := "", candidate := "Smith, John",
    party := "DEM", votes := "10" }

/-- The Governor precinct row with a non-empty district field. -/
def prowGov7 : PrecinctRow := { prowGov with district := "7" }

/-- A precinct-detail row whose contest_name is exactly the special
multi-district presidential office. -/
def prowPres : PrecinctRow :=
  { prowGov with
    contest_name := "U.S. President by Congressional District"
    district := "1"
    candidate := "Obama, Barack" }

/-- A county-summary row for a Governor contest. -/
def crowGov : CountyRow :=
  { OfficeDesc := "Governor", CountyName := "Leon", Juris1num := "",
    CanNameLast := "Smith", CanNameFirst := "John", CanNameMiddle := "",
    PartyName := "DEM", CanVotes := "100" }

/-- The Governor county row with a non-numeric raw vote value. -/
def crowAbc : CountyRow := { crowGov with CanVotes := "abc" }

/-- A county-summary row for an office outside the target set. -/
def crowCC : CountyRow := { crowGov with OfficeDesc := "City Council" }

/-- A county-summary row for the special presidential office, with an
untrimmed district-number field. -/
def crowPres : CountyRow :=
  { crowGov with
    OfficeDesc := "U.S. President by Congressional District"
    Juris1num := " 3 " }

/-- A county-summary row for a district office. -/
def crowSen : CountyRow :=
  { crowGov with OfficeDesc := "State Senator", Juris1num := "7" }

/-- The Result the precinct loader builds from `prowGov` against
`jurisLeon` (the `getD` default is never taken: the row resolves and its
votes parse). -/
def resGov : RawResult :=
  (prepPrecinctResult jurisLeon common0 "precinct" prowGov).toOption.getD
    (flPrepResult "o" common0 crowGov)

/-! ## Helper lemmas -/

/-- Unfolding equation of the precinct loop on an empty file. -/
theorem precinctProcess_nil (juris : List Jurisdiction) (c : CommonKwargs) :
    precinctProcess juris c [] = .ok [] := rfl

/-- Unfolding equation of the precinct loop on one more row. -/
theorem precinctProcess_cons (juris : List Jurisdiction) (c : CommonKwargs)
    (row : PrecinctRow) (rest : List PrecinctRow) :
    precinctProcess juris c (row :: rest) =
      if precSkipRow row then precinctProcess juris c rest
      else
        match prepPrecinctResult juris c "precinct" row with
        | .error e => .error e
        | .ok r =>
          match precinctProcess juris c rest with
          | .error e => .error e
          | .ok rs => .ok (r :: rs) := rfl

/-- One `flStep` preserves the loop invariant of FlLoader.load: the batch's
keys are pairwise distinct, and every batch key is in the seen set. -/
theorem flStep_inv (mappingOcd : String) (c : CommonKwargs) (row : CountyRow)
    (st : List RawResult × List String)
    (h1 : st.1.Pairwise (fun a b => rawKey a ≠ rawKey b))
    (h2 : ∀ x ∈ st.1, rawKey x ∈ st.2) :
    (flStep mappingOcd c st row).1.Pairwise (fun a b => rawKey a ≠ rawKey b) ∧
      ∀ x ∈ (flStep mappingOcd c st row).1,
        rawKey x ∈ (flStep mappingOcd c st row).2 := by
  unfold flStep
  split
  · exact ⟨h1, h2⟩
  · dsimp only
    split
    · exact ⟨h1, h2⟩
    · rename_i hk
      constructor
      · refine List.pairwise_append.mpr ⟨h1, by simp, ?_⟩
        intro a ha b hb
        simp only [List.mem_singleton] at hb
        subst hb
        intro he
        exact hk (he ▸ h2 a ha)
      · intro x hx
        rcases List.mem_append.mp hx with h | h
        · exact List.mem_cons_of_mem _ (h2 x h)
        · simp only [List.mem_singleton] at h
          subst h
          exact List.mem_cons_self _ _

/-- The loop invariant holds along the whole fold of FlLoader.load. -/
theorem flFold_inv (mappingOcd : String) (c : CommonKwargs)
    (rows : List CountyRow) :
    ∀ st : List RawResult × List String,
      st.1.Pairwise (fun a b => rawKey a ≠ rawKey b) →
      (∀ x ∈ st.1, rawKey x ∈ st.2) →
      (rows.foldl (flStep mappingOcd c) st).1.Pairwise
          (fun a b => rawKey a ≠ rawKey b) ∧
        ∀ x ∈ (rows.foldl (flStep mappingOcd c) st).1,
          rawKey x ∈ (rows.foldl (flStep mappingOcd c) st).2 := by
  induction rows with
  | nil => intro st h1 h2; exact ⟨h1, h2⟩
  | cons row rest ih =>
    intro st h1 h2
    obtain ⟨h3, h4⟩ := flStep_inv mappingOcd c row st h1 h2
    simpa using ih (flStep mappingOcd c st row) h3 h4

/-- A non-skipped county row whose key is already in the seen set leaves
the loop state unchanged: the first-seen Result for a key wins. -/
theorem flStep_of_seen (mappingOcd : String) (c : CommonKwargs)
    (row : CountyRow) (st : List RawResult × List String)
    (hskip : flSkipRow row = false)
    (hmem : rawKey (flPrepResult mappingOcd c row) ∈ st.2) :
    flStep mappingOcd c st row = st := by
  unfold flStep
  rw [if_neg (by rw [hskip]; exact Bool.false_ne_true)]
  dsimp only
  rw [if_pos hmem]

/-- A successfully prepared precinct Result has reporting level
"precinct". -/
theorem prep_ok_level (juris : List Jurisdiction) (c : CommonKwargs)
    (il : String) (row : PrecinctRow) (r : RawResult)
    (h : prepPrecinctResult juris c il row = .ok r) :
    r.reporting_level = "precinct" := by
  unfold prepPrecinctResult at h
  cases hr : resolveCounty juris row.county_name with
  | none => simp [hr] at h
  | some ocd =>
    cases hv : pyVotes row.votes with
    | error e => simp [hr, hv] at h
    | ok v =>
      simp only [hr, hv] at h
      cases h
      rfl

/-- Every Result of a successful precinct batch has reporting level
"precinct". -/
theorem precinctProcess_levels (juris : List Jurisdiction) (c : CommonKwargs)
    (rows : List PrecinctRow) :
    ∀ rs, precinctProcess juris c rows = .ok rs →
      ∀ r ∈ rs, r.reporting_level = "precinct" := by
  induction rows with
  | nil =>
    intro rs h
    rw [precinctProcess_nil] at h
    cases h
    intro r hr
    cases hr
  | cons row rest ih =>
    intro rs h
    rw [precinctProcess_cons] at h
    by_cases hs : precSkipRow row
    · rw [if_pos hs] at h
      exact ih rs h
    · rw [if_neg hs] at h
      cases hp : prepPrecinctResult juris c "precinct" row with
      | error e => rw [hp] at h; cases h
      | ok x =>
        rw [hp] at h
        cases hrest : precinctProcess juris c rest with
        | error e => rw [hrest] at h; cases h
        | ok rs2 =>
          rw [hrest] at h
          cases h
          intro r hr
          rcases List.mem_cons.mp hr with h | h
          · exact h ▸ prep_ok_level juris c "precinct" row x hp
          · exact ih rs2 hrest r h

/-- The Bool form of the previous lemma, covering the aborted case
vacuously. -/
theorem precinctProcess_levels_all (juris : List Jurisdiction)
    (c : CommonKwargs) (rows : List PrecinctRow) :
    ((precinctProcess juris c rows).toOption.getD []).all
        (fun r => r.reporting_level == "precinct") = true := by
  cases hp : precinctProcess juris c rows with
  | error e => rfl
  | ok rs =>
    simp only [Except.toOption, Option.getD_some, List.all_eq_true]
    intro r hr
    exact beq_iff_eq.mpr (precinctProcess_levels juris c rows rs hp r hr)

/-- A non-skipped row whose county does not resolve aborts the whole
precinct loop, wherever it sits in the file. -/
theorem precinctProcess_aborts (juris : List Jurisdiction) (c : CommonKwargs)
    (r : PrecinctRow) (rows2 : List PrecinctRow)
    (h1 : precSkipRow r = false)
    (h2 : resolveCounty juris r.county_name = none) :
    ∀ rows1, ∃ e, precinctProcess juris c (rows1 ++ r :: rows2) = .error e := by
  intro rows1
  induction rows1 with
  | nil =>
    refine ⟨.indexError r.county_name, ?_⟩
    rw [List.nil_append, precinctProcess_cons, if_neg (by rw [h1]; exact Bool.false_ne_true)]
    unfold prepPrecinctResult
    rw [h2]
  | cons row rest ih =>
    obtain ⟨e, he⟩ := ih
    rw [List.cons_append, precinctProcess_cons]
    by_cases hs : precSkipRow row
    · rw [if_pos hs]
      exact ⟨e, he⟩
    · rw [if_neg hs]
      cases hp : prepPrecinctResult juris c "precinct" row with
      | error e2 => exact ⟨e2, rfl⟩
      | ok x => exact ⟨e, by rw [he]⟩

/-- The overflow-boundary numeral is exactly 2^1024 - 2^970. -/
theorem dblBound_eq : dblBound = 2 ^ 1024 - 2 ^ 970 := by
  norm_num [dblBound]

/-- An empty stripped string does not parse as a float (the grammar needs
a digit or keyword). -/
theorem pyParseFloat_of_strip_empty (s : String) (h : pyStrip s = "") :
    pyParseFloat s = none := by
  have hd : stripChars s.toList = [] := congrArg String.data h
  unfold pyParseFloat
  rw [hd]
  rfl

/-! ## Claim C9: totality of the vote coercion -/

/-- C9 (corrected): `_votes` returns an integer without raising for every
raw string — empty or whitespace-only input, unparseable text and nan
give 0, a finite literal truncates toward zero — EXCEPT when the string
parses as an infinite float (the inf/infinity keywords or an overflowing
literal), where `int()` raises an OverflowError that the
`except ValueError` clause does not catch. -/
theorem c9_votes_total_except_infinite (s : String) (neg : Bool) (m : Nat)
    (e : Int) :
    (pyVotes s = .error PyExc.overflowError
      ↔ (pyParseFloat s = some PyFloat.inf ∨ pyParseFloat s = some PyFloat.negInf))
    ∧ (pyStrip s = "" → pyVotes s = .ok 0)
    ∧ (pyParseFloat s = none → pyVotes s = .ok 0)
    ∧ (pyParseFloat s = some PyFloat.nan → pyVotes s = .ok 0)
    ∧ (pyParseFloat s = some (PyFloat.finite neg m e)
        → pyVotes s = .ok (pyTrunc neg m e)) := by
  by_cases h : pyStrip s = ""
  · have hp := pyParseFloat_of_strip_empty s h
    simp [pyVotes, h, hp]
  · cases hp : pyParseFloat s with
    | none => simp [pyVotes, h, hp]
    | some f => cases f <;> simp_all [pyVotes, h, hp]

/-- C9 witness: the characterization applied at the concrete string
"inf". -/
theorem c9_votes_total_except_infinite_witness :
    (pyVotes "inf" = .error PyExc.overflowError
      ↔ (pyParseFloat "inf" = some PyFloat.inf
          ∨ pyParseFloat "inf" = some PyFloat.negInf))
    ∧ (pyStrip "inf" = "" → pyVotes "inf" = .ok 0)
    ∧ (pyParseFloat "inf" = none → pyVotes "inf" = .ok 0)
    ∧ (pyParseFloat "inf" = some PyFloat.nan → pyVotes "inf" = .ok 0)
    ∧ (pyParseFloat "inf" = some (PyFloat.finite false 0 0)
        → pyVotes "inf" = .ok (pyTrunc false 0 0)) :=
  c9_votes_total_except_infinite "inf" false 0 0

/-- C9 counterexample: on the raw strings "inf" and "1e400" (an extreme
numeric literal) the coercion raises an uncaught OverflowError instead of
returning an integer. -/
theorem c9_votes_raise_on_infinite :
    pyVotes "inf" = .error PyExc.overflowError
    ∧ pyVotes "1e400" = .error PyExc.overflowError := by
  refine ⟨by decide, ?_⟩
  decide

/-! ## Claim C2: the votes field of emitted Results -/

/-- C2 (corrected): a county-summary Result's votes field is the raw
stripped vote string, uncoerced; a precinct Result's votes field is the
coerced count `_votes` returns, which gives 0 on empty, whitespace-only or
unparseable raw values and truncates "123.9" to 123. -/
theorem c2_votes_field (mo : String) (c : CommonKwargs) (row : CountyRow)
    (juris : List Jurisdiction) (c2 : CommonKwargs) (il : String)
    (prow : PrecinctRow) (ocd : String) (w : Int)
    (h1 : resolveCounty juris prow.county_name = some ocd)
    (h2 : pyVotes prow.votes = .ok w) :
    (flPrepResult mo c row).votes = VotesVal.str (pyStrip row.CanVotes)
    ∧ (prepPrecinctResult juris c2 il prow).map (fun r => r.votes)
        = .ok (VotesVal.int w)
    ∧ pyVotes "" = .ok 0
    ∧ pyVotes "   " = .ok 0
    ∧ pyVotes "abc" = .ok 0
    ∧ pyVotes "123.9" = .ok 123 := by
  refine ⟨rfl, ?_, by decide, by decide, by decide, by decide⟩
  unfold prepPrecinctResult
  rw [h1, h2]
  rfl

/-- C2 witness: the votes-field characterization applied to the
non-numeric county row `crowAbc` and the precinct row `prowGov`. -/
theorem c2_votes_field_witness :
    (flPrepResult "ocd-fl" common0 crowAbc).votes
        = VotesVal.str (pyStrip crowAbc.CanVotes)
    ∧ (prepPrecinctResult jurisLeon common0 "precinct" prowGov).map
          (fun r => r.votes) = .ok (VotesVal.int 10)
    ∧ pyVotes "" = .ok 0
    ∧ pyVotes "   " = .ok 0
    ∧ pyVotes "abc" = .ok 0
    ∧ pyVotes "123.9" = .ok 123 :=
  c2_votes_field "ocd-fl" common0 crowAbc jurisLeon common0 "precinct"
    prowGov "ocd-leon" 10 (by decide) (by decide)

/-- C2 counterexample: the county row with raw vote value "abc" is emitted
with the string "abc" in its votes field, not the coerced integer 0; and
the coercion itself is not non-negative (raw "-5" coerces to -5). -/
theorem c2_county_votes_uncoerced :
    (flPrepResult "ocd-fl" common0 crowAbc).votes = VotesVal.str "abc"
    ∧ VotesVal.str "abc" ≠ VotesVal.int 0
    ∧ pyVotes "-5" = .ok (-5) := by
  refine ⟨by decide, by decide, by decide⟩

/-! ## Claim C4: the skip rules -/

/-- C4 (confirmed): a one-row county-summary file yields an empty batch
iff the row's stripped office field is not a member of the target-office
set (exact match); a one-row precinct file yields an empty successful
batch iff no target-office string occurs in its contest-name field as a
substring. -/
theorem c4_skip_rules (mo : String) (c : CommonKwargs) (row : CountyRow)
    (juris : List Jurisdiction) (c2 : CommonKwargs) (prow : PrecinctRow) :
    (flLoadResults mo c [row] = [] ↔ pyStrip row.OfficeDesc ∉ targetOffices)
    ∧ (precinctProcess juris c2 [prow] = .ok []
        ↔ ∀ o ∈ targetOffices, strOccurs o prow.contest_name = false) := by
  constructor
  · by_cases hm : pyStrip row.OfficeDesc ∈ targetOffices <;>
      simp [flLoadResults, flStep, flSkipRow, hm]
  · by_cases hs : precSkipRow prow
    · have hall : ∀ o ∈ targetOffices, strOccurs o prow.contest_name = false := by
        have hany : targetOffices.any
            (fun o => strOccurs o prow.contest_name) = false := by
          simpa [precSkipRow] using hs
        simpa using List.any_eq_false.mp hany
      constructor
      · intro _; exact hall
      · intro _
        rw [precinctProcess_cons, if_pos hs, precinctProcess_nil]
    · have hex : ¬∀ o ∈ targetOffices, strOccurs o prow.contest_name = false := by
        have hany : targetOffices.any
            (fun o => strOccurs o prow.contest_name) = true := by
          simpa [precSkipRow] using hs
        obtain ⟨o, ho, hocc⟩ := List.any_eq_true.mp hany
        intro hall
        exact absurd (hall o ho) (by simp [hocc])
      constructor
      · intro h0
        rw [precinctProcess_cons, if_neg hs] at h0
        cases hp : prepPrecinctResult juris c2 "precinct" prow with
        | error e2 => rw [hp] at h0; cases h0
        | ok x =>
          rw [hp, precinctProcess_nil] at h0
          cases h0
      · intro hall
        exact absurd hall hex

/-- C4 witness: the skip characterization applied to the non-target
county row `crowCC` and the Governor precinct row `prowGov`. -/
theorem c4_skip_rules_witness :
    (flLoadResults "o" common0 [crowCC] = []
        ↔ pyStrip crowCC.OfficeDesc ∉ targetOffices)
    ∧ (precinctProcess jurisLeon common0 [prowGov] = .ok []
        ↔ ∀ o ∈ targetOffices, strOccurs o prowGov.contest_name = false) :=
  c4_skip_rules "o" common0 crowCC jurisLeon common0 prowGov

/-! ## Claim C5: reporting level and reporting district -/

/-- C5 (corrected): for county-summary Results the reporting level is
congressional_district_by_county iff the office is the special
presidential office — with the stripped Juris1num as reporting district in
that case and level county with no reporting district otherwise — but
every precinct Result carries level "precinct", so the biconditional over
all emitted Results fails (see the counterexample). -/
theorem c5_reporting_level (mo : String) (c : CommonKwargs) (row : CountyRow)
    (juris : List Jurisdiction) (c2 : CommonKwargs) (rows : List PrecinctRow) :
    ((flPrepResult mo c row).reporting_level = "congressional_district_by_county"
        ↔ (flPrepResult mo c row).office = presByCD)
    ∧ ((flPrepResult mo c row).reporting_district
        = if pyStrip row.OfficeDesc = presByCD
          then some (pyStrip row.Juris1num) else none)
    ∧ ((flPrepResult mo c row).office ≠ presByCD
        → (flPrepResult mo c row).reporting_level = "county"
          ∧ (flPrepResult mo c row).reporting_district = none)
    ∧ ((precinctProcess juris c2 rows).toOption.getD []).all
        (fun r => r.reporting_level == "precinct") = true := by
  refine ⟨?_, ?_, ?_, precinctProcess_levels_all juris c2 rows⟩ <;>
    by_cases ho : pyStrip row.OfficeDesc = presByCD <;>
      simp [flPrepResult, ho]

/-- C5 witness: the characterization applied to the presidential county
row `crowPres` and the one-row precinct file `[prowPres]`. -/
theorem c5_reporting_level_witness :
    ((flPrepResult "o" common0 crowPres).reporting_level
          = "congressional_district_by_county"
        ↔ (flPrepResult "o" common0 crowPres).office = presByCD)
    ∧ ((flPrepResult "o" common0 crowPres).reporting_district
        = if pyStrip crowPres.OfficeDesc = presByCD
          then some (pyStrip crowPres.Juris1num) else none)
    ∧ ((flPrepResult "o" common0 crowPres).office ≠ presByCD
        → (flPrepResult "o" common0 crowPres).reporting_level = "county"
          ∧ (flPrepResult "o" common0 crowPres).reporting_district = none)
    ∧ ((precinctProcess jurisLeon common0 [prowPres]).toOption.getD []).all
        (fun r => r.reporting_level == "precinct") = true :=
  c5_reporting_level "o" common0 crowPres jurisLeon common0 [prowPres]

/-- C5 counterexample: a precinct row whose contest name is exactly
"U.S. President by Congressional District" is emitted with that office
and reporting level "precinct", not congressional_district_by_county. -/
theorem c5_precinct_presidential_level :
    (precinctProcess jurisLeon common0 [prowPres]).map
        (fun l => l.map (fun r => (r.office, r.reporting_level)))
      = .ok [("U.S. President by Congressional District", "precinct")]
    ∧ "precinct" ≠ "congressional_district_by_county" := by
  refine ⟨by decide, by decide⟩

/-! ## Claim C6: district presence -/

/-- C6 (corrected): a county-summary Result carries a district value iff
its office is a district office (with the stripped Juris1num as the
value); a precinct Result carries a district value — the stripped district
field — for every office, so the biconditional over all emitted Results
fails (see the counterexample). -/
theorem c6_district_presence (mo : String) (c : CommonKwargs)
    (row : CountyRow) (juris : List Jurisdiction) (c2 : CommonKwargs)
    (il : String) (prow : PrecinctRow) (ocd : String) (w : Int)
    (h1 : resolveCounty juris prow.county_name = some ocd)
    (h2 : pyVotes prow.votes = .ok w) :
    ((flPrepResult mo c row).district.isSome
        ↔ pyStrip row.OfficeDesc ∈ districtOffices)
    ∧ ((flPrepResult mo c row).district
        = if pyStrip row.OfficeDesc ∈ districtOffices
          then some (pyStrip row.Juris1num) else none)
    ∧ (prepPrecinctResult juris c2 il prow).map (fun r => r.district)
        = .ok (some (pyStrip prow.district)) := by
  refine ⟨?_, ?_, ?_⟩
  · by_cases hm : pyStrip row.OfficeDesc ∈ districtOffices <;>
      simp [flPrepResult, hm]
  · by_cases hm : pyStrip row.OfficeDesc ∈ districtOffices <;>
      simp [flPrepResult, hm]
  · unfold prepPrecinctResult
    rw [h1, h2]
    rfl

/-- C6 witness: the characterization applied to the State Senator county
row `crowSen` and the precinct row `prowGov7`. -/
theorem c6_district_presence_witness :
    ((flPrepResult "o" common0 crowSen).district.isSome
        ↔ pyStrip crowSen.OfficeDesc ∈ districtOffices)
    ∧ ((flPrepResult "o" common0 crowSen).district
        = if pyStrip crowSen.OfficeDesc ∈ districtOffices
          then some (pyStrip crowSen.Juris1num) else none)
    ∧ (prepPrecinctResult jurisLeon common0 "precinct" prowGov7).map
        (fun r => r.district) = .ok (some (pyStrip prowGov7.district)) :=
  c6_district_presence "o" common0 crowSen jurisLeon common0 "precinct"
    prowGov7 "ocd-leon" 10 (by decide) (by decide)

/-- C6 counterexample: a precinct Governor row — Governor is not a
district office — is emitted with district "7" present. -/
theorem c6_precinct_district_always_set :
    (precinctProcess jurisLeon common0 [prowGov7]).map
        (fun l => l.map (fun r => (r.office, r.district)))
      = .ok [("Governor", some "7")]
    ∧ "Governor" ∉ districtOffices := by
  refine ⟨by decide, by decide⟩

/-! ## Claim C7: one bulk insert or none -/

/-- C7 (confirmed): the county loader always issues exactly one bulk
insert carrying its whole deduplicated batch; the precinct loader issues
exactly one bulk insert carrying the whole batch when every row went
through, and none at all when the load aborted. -/
theorem c7_single_bulk_insert (mo : String) (c : CommonKwargs)
    (rows : List CountyRow) (juris : List Jurisdiction) (c2 : CommonKwargs)
    (prows : List PrecinctRow) (rs : List RawResult) (e : PrecErr) :
    flLoadEvents mo c rows = [StoreEvent.insert (flLoadResults mo c rows)]
    ∧ (precinctProcess juris c2 prows = .ok rs
        → precinctLoadEvents juris c2 prows = [StoreEvent.insert rs])
    ∧ (precinctProcess juris c2 prows = .error e
        → precinctLoadEvents juris c2 prows = []) := by
  refine ⟨rfl, fun h => ?_, fun h => ?_⟩ <;> simp [precinctLoadEvents, h]

/-- C7 witness: the store-call characterization applied to a one-row
county file and a one-row precinct file. -/
theorem c7_single_bulk_insert_witness :
    flLoadEvents "o" common0 [crowGov]
        = [StoreEvent.insert (flLoadResults "o" common0 [crowGov])]
    ∧ (precinctProcess jurisLeon common0 [prowGov] = .ok [resGov]
        → precinctLoadEvents jurisLeon common0 [prowGov]
            = [StoreEvent.insert [resGov]])
    ∧ (precinctProcess jurisLeon common0 [prowGov]
          = .error (PrecErr.indexError "Leon")
        → precinctLoadEvents jurisLeon common0 [prowGov] = []) :=
  c7_single_bulk_insert "o" common0 [crowGov] jurisLeon common0 [prowGov]
    [resGov] (PrecErr.indexError "Leon")

/-! ## Claim C8: candidate-name substitution and slug -/

/-- C8 (confirmed): the precinct candidate full name substitutes the
literal raw values UnderVotes, OverVotes and WriteinVotes, passes every
other raw value through stripped, and the retained name slug is the
slugified full name. -/
theorem c8_candidate_substitution (raw : String) (juris : List Jurisdiction)
    (c2 : CommonKwargs) (il : String) (prow : PrecinctRow) (ocd : String)
    (w : Int)
    (h1 : resolveCounty juris prow.county_name = some ocd)
    (h2 : pyVotes prow.votes = .ok w)
    (h3 : pyStrip raw ≠ "UnderVotes")
    (h4 : pyStrip raw ≠ "OverVotes")
    (h5 : pyStrip raw ≠ "WriteinVotes") :
    precinctFullName "UnderVotes" = "Under Votes"
    ∧ precinctFullName "OverVotes" = "Over Votes"
    ∧ precinctFullName "WriteinVotes" = "Write-ins"
    ∧ precinctFullName raw = pyStrip raw
    ∧ (prepPrecinctResult juris c2 il prow).map
          (fun r => (r.full_name, r.name_slug))
        = .ok (some (precinctFullName prow.candidate),
            some (slugify (precinctFullName prow.candidate)))
    ∧ slugify "Under Votes" = "under-votes"
    ∧ slugify "Over Votes" = "over-votes"
    ∧ slugify "Write-ins" = "write-ins" := by
  refine ⟨by decide, by decide, by decide, ?_, ?_, by decide, by decide,
    by decide⟩
  · simp [precinctFullName, h3, h4, h5]
  · unfold prepPrecinctResult
    rw [h1, h2]
    rfl

/-- C8 witness: the substitution characterization applied to the raw
candidate value of `prowGov`. -/
theorem c8_candidate_substitution_witness :
    precinctFullName "UnderVotes" = "Under Votes"
    ∧ precinctFullName "OverVotes" = "Over Votes"
    ∧ precinctFullName "WriteinVotes" = "Write-ins"
    ∧ precinctFullName "Smith, John" = pyStrip "Smith, John"
    ∧ (prepPrecinctResult jurisLeon common0 "precinct" prowGov).map
          (fun r => (r.full_name, r.name_slug))
        = .ok (some (precinctFullName prowGov.candidate),
            some (slugify (precinctFullName prowGov.candidate)))
    ∧ slugify "Under Votes" = "under-votes"
    ∧ slugify "Over Votes" = "over-votes"
    ∧ slugify "Write-ins" = "write-ins" :=
  c8_candidate_substitution "Smith, John" jurisLeon common0 "precinct"
    prowGov "ocd-leon" 10 (by decide) (by decide) (by decide) (by decide)
    (by decide)

/-! ## Claim C10: precinct Results always carry level "precinct" -/

/-- C10 (confirmed): every Result the precinct loader emits carries
reporting level "precinct" — whatever its contest name — and the per-row
construction sets that level for any inherited per-file value (the `il`
argument), overwriting it. -/
theorem c10_precinct_level_fixed (juris : List Jurisdiction)
    (c : CommonKwargs) (il : String) (prow : PrecinctRow) (ocd : String)
    (w : Int) (rows : List PrecinctRow)
    (h1 : resolveCounty juris prow.county_name = some ocd)
    (h2 : pyVotes prow.votes = .ok w) :
    (prepPrecinctResult juris c il prow).map (fun r => r.reporting_level)
        = .ok "precinct"
    ∧ ((precinctProcess juris c rows).toOption.getD []).all
        (fun r => r.reporting_level == "precinct") = true := by
  refine ⟨?_, precinctProcess_levels_all juris c rows⟩
  unfold prepPrecinctResult
  rw [h1, h2]
  rfl

/-- C10 witness: the level characterization applied to the presidential
precinct row `prowPres`, with an inherited level deliberately different
from "precinct". -/
theorem c10_precinct_level_fixed_witness :
    (prepPrecinctResult jurisLeon common0 "county" prowPres).map
        (fun r => r.reporting_level) = .ok "precinct"
    ∧ ((precinctProcess jurisLeon common0 [prowPres]).toOption.getD []).all
        (fun r => r.reporting_level == "precinct") = true :=
  c10_precinct_level_fixed jurisLeon common0 "county" prowPres "ocd-leon" 10
    [prowPres] (by decide) (by decide)

/-! ## Claim C3: jurisdiction resolution failure and ambiguity -/

/-- C3 (corrected): a non-skipped precinct row whose suffixed county name
matches no reference entry aborts the whole file's load — no bulk insert
happens, wherever the row sits — but a name matching several entries is
not an error: resolution silently yields the first matching entry's
code. -/
theorem c3_resolution_failure_aborts (juris : List Jurisdiction)
    (c : CommonKwargs) (rows1 : List PrecinctRow) (r : PrecinctRow)
    (rows2 : List PrecinctRow) (j : Jurisdiction) (js : List Jurisdiction)
    (name : String)
    (h1 : precSkipRow r = false)
    (h2 : resolveCounty juris r.county_name = none)
    (h3 : pyUpper j.county = pyUpper name ++ " COUNTY") :
    precinctLoadEvents juris c (rows1 ++ r :: rows2) = []
    ∧ resolveCounty (j :: js) name = some j.ocd_id := by
  constructor
  · obtain ⟨e, he⟩ := precinctProcess_aborts juris c r rows2 h1 h2 rows1
    simp [precinctLoadEvents, he]
  · simp [resolveCounty, List.filter_cons, h3]

/-- C3 witness: the abort applied to a one-row file against an empty
reference list, and the first-match resolution applied to a two-entry
Leon list. -/
theorem c3_resolution_failure_aborts_witness :
    precinctLoadEvents [] common0 ([] ++ prowGov :: []) = []
    ∧ resolveCounty
        (Jurisdiction.mk "Leon County" "ocd-leon-1"
          :: [Jurisdiction.mk "Leon County" "ocd-leon-2"]) "Leon"
      = some "ocd-leon-1" :=
  c3_resolution_failure_aborts [] common0 [] prowGov []
    (Jurisdiction.mk "Leon County" "ocd-leon-1")
    [Jurisdiction.mk "Leon County" "ocd-leon-2"] "Leon"
    (by decide) (by decide) (by decide)

/-- C3 counterexample: against a reference list in which "LEON COUNTY"
matches two entries, the Leon precinct row resolves successfully to the
first entry's code instead of being an error. -/
theorem c3_multiple_matches_not_an_error :
    (jurisTwoLeon.filter
        (fun cc => decide (pyUpper cc.county = pyUpper "Leon" ++ " COUNTY"))).length
      = 2
    ∧ resolveCounty jurisTwoLeon "Leon" = some "ocd-leon-1"
    ∧ (prepPrecinctResult jurisTwoLeon common0 "precinct" prowGov).toOption.isSome
      = true := by
  refine ⟨by decide, by decide, by decide⟩

/-! ## Claim C1: deduplication -/

/-- C1 (corrected): the county-summary loader's batch carries pairwise
distinct dedup keys, and a non-skipped row whose key the batch already
carries contributes nothing (the first-seen Result wins); the precinct
loader, by contrast, appends every surviving row's Result without any
deduplication. -/
theorem c1_county_dedup_first_wins (mo : String) (c : CommonKwargs)
    (rows rows1 rows2 : List CountyRow) (r : CountyRow)
    (juris : List Jurisdiction) (c2 : CommonKwargs) (p : PrecinctRow)
    (prows : List PrecinctRow) (x : RawResult) (xs : List RawResult)
    (h1 : flSkipRow r = false)
    (h2 : rawKey (flPrepResult mo c r) ∈ (flLoadResults mo c rows1).map rawKey)
    (h3 : precSkipRow p = false)
    (h4 : prepPrecinctResult juris c2 "precinct" p = .ok x)
    (h5 : precinctProcess juris c2 prows = .ok xs) :
    (flLoadResults mo c rows).Pairwise (fun a b => rawKey a ≠ rawKey b)
    ∧ flLoadResults mo c (rows1 ++ r :: rows2) = flLoadResults mo c (rows1 ++ rows2)
    ∧ precinctProcess juris c2 (p :: prows) = .ok (x :: xs) := by
  refine ⟨(flFold_inv mo c rows ([], []) (by simp) (by simp)).1, ?_, ?_⟩
  · have hsplit1 : flLoadResults mo c (rows1 ++ r :: rows2)
        = (rows2.foldl (flStep mo c)
            (flStep mo c (rows1.foldl (flStep mo c) ([], [])) r)).1 := by
      simp [flLoadResults, List.foldl_append]
    have hsplit2 : flLoadResults mo c (rows1 ++ rows2)
        = (rows2.foldl (flStep mo c) (rows1.foldl (flStep mo c) ([], []))).1 := by
      simp [flLoadResults, List.foldl_append]
    have hinv := flFold_inv mo c rows1 ([], []) (by simp) (by simp)
    have hkey : rawKey (flPrepResult mo c r)
        ∈ (rows1.foldl (flStep mo c) ([], [])).2 := by
      obtain ⟨x0, hx0, hke⟩ := List.mem_map.mp h2
      exact hke ▸ hinv.2 x0 hx0
    rw [hsplit1, hsplit2, flStep_of_seen mo c r _ h1 hkey]
  · rw [precinctProcess_cons,
      if_neg (by rw [h3]; exact Bool.false_ne_true), h4, h5]

/-- C1 witness: the dedup characterization applied to a county file
holding the Governor row twice and a one-row precinct file. -/
theorem c1_county_dedup_first_wins_witness :
    (flLoadResults "o" common0 [crowGov, crowGov]).Pairwise
        (fun a b => rawKey a ≠ rawKey b)
    ∧ flLoadResults "o" common0 ([crowGov] ++ crowGov :: [])
        = flLoadResults "o" common0 ([crowGov] ++ [])
    ∧ precinctProcess jurisLeon common0 (prowGov :: []) = .ok (resGov :: []) :=
  c1_county_dedup_first_wins "o" common0 [crowGov, crowGov] [crowGov] []
    crowGov jurisLeon common0 prowGov [] resGov []
    (by decide) (by decide) (by decide) (by decide) (by decide)

/-- C1 counterexample: a precinct file holding the same row twice hands
the store a batch of two Results sharing one deduplication key. -/
theorem c1_precinct_no_dedup :
    precinctLoadEvents jurisLeon common0 [prowGov, prowGov]
      = [StoreEvent.insert [resGov, resGov]]
    ∧ rawKey resGov = "governor-smith-john-1-city-hall"
    ∧ (precinctProcess jurisLeon common0 [prowGov, prowGov]).map
          (fun l => l.map rawKey)
        = .ok ["governor-smith-john-1-city-hall",
            "governor-smith-john-1-city-hall"] := by
  refine ⟨by decide, by decide, by decide⟩

end FlLoad
